import Mathlib

/-!
Shallow embedding of `src/data_processing_tool/static/js/script.js`, the
browser-side controller of the data preparation and analysis tool.  The
script keeps three pieces of session state (`currentFilename`,
`currentCleanedFilename`, `columns`), wires four event handlers
(upload submit, preprocess click, analyze click, column-select change)
and derives all option widgets from the `columns` structure returned by
the server.  We model the DOM output of each handler as explicit
display values and the handlers themselves as pure functions from the
(parsed) server response to those values; the asynchronous session is
modelled as a step function over an event trace.
-/

namespace DataPrep

/-- The `columns` object delivered by `/upload` (`data.columns`): the full
ordered column list and the set of numeric column names.  The script only
ever reads `columns.all` and `columns.numeric`. -/
structure Columns where
  all : List String
  numeric : List String
  deriving Repr, DecidableEq

/-! ## Plot options (`updatePlotOptions`, script.js lines 173-177) -/

/-- `updatePlotOptions`: the `value` attributes of the options written into
`plot-type-select`.  Translated from lines 174-176:
`columns.numeric.includes(selectedColumn) ? histogram/boxplot : count`. -/
def updatePlotOptions (columns : Columns) (selectedColumn : String) : List String :=
  if columns.numeric.contains selectedColumn then
    ["histogram", "boxplot"]
  else
    ["count"]

/-! ## Preprocessing tool widgets (`populatePreprocessingTools`, lines 148-171) -/

/-- The `value` attributes of the `<option>` elements of one
`missing-value-select`, in document order (lines 159-164): `none`, then
`mean`/`median` when the column is numeric, then `mode` and `remove`. -/
def missingValueOptions (isNumeric : Bool) : List String :=
  ["none"] ++ (if isNumeric then ["mean", "median"] else []) ++ ["mode", "remove"]

/-- The widgets `populatePreprocessingTools` creates for one column:
its missing-value select's option values, and whether an outlier checkbox
and a normalization checkbox exist for it (lines 166-169: created only
when `cols.numeric.includes(col)`). -/
structure ColumnControls where
  column : String
  missingOptions : List String
  hasOutlierBox : Bool
  hasNormalizeBox : Bool
  deriving Repr, DecidableEq

/-- `populatePreprocessingTools` (lines 154-170): one `ColumnControls`
per entry of `cols.all`, in order. -/
def populatePreprocessingTools (cols : Columns) : List ColumnControls :=
  cols.all.map fun col =>
    let isNumeric := cols.numeric.contains col
    { column := col
      missingOptions := missingValueOptions isNumeric
      hasOutlierBox := isNumeric
      hasNormalizeBox := isNumeric }

/-- The numeric side of the partition the UI works with: the columns of
`cols.all` for which `cols.numeric.includes(col)` holds. -/
def uiNumeric (cols : Columns) : List String :=
  cols.all.filter fun col => cols.numeric.contains col

/-- The categorical side the UI derives: every column of `cols.all` that is
not in `cols.numeric` takes the non-numeric branch of lines 161, 166
and 174-176. -/
def uiCategorical (cols : Columns) : List String :=
  cols.all.filter fun col => !cols.numeric.contains col

/-! ## The actions payload (`preprocess-btn` handler, lines 58-61) -/

/-- One `.missing-value-select` element as the handler reads it: its
`data-column` attribute and its current `value`. -/
structure MissingSelect where
  column : String
  value : String
  deriving Repr, DecidableEq

/-- One outlier or normalize checkbox: its `data-column` and checked state. -/
structure CheckBox where
  column : String
  checked : Bool
  deriving Repr, DecidableEq

/-- The DOM state the preprocess handler queries (lines 59-61). -/
structure ToolState where
  missingSelects : List MissingSelect
  outlierBoxes : List CheckBox
  normalizeBoxes : List CheckBox
  deriving Repr, DecidableEq

/-- The `actions` object sent to `/preprocess` (lines 58-61). -/
structure Actions where
  missing_values : List (String × String)
  outliers : List String
  normalize : List String
  deriving Repr, DecidableEq

/-- Lines 58-61: `missing_values[s.dataset.column] = s.value` for every
select whose value is not `none`; `outliers` and `normalize` collect the
`data-column` of every checked checkbox, in document order. -/
def buildActions (s : ToolState) : Actions :=
  { missing_values :=
      s.missingSelects.filterMap fun m =>
        if m.value ≠ "none" then some (m.column, m.value) else none
    outliers := (s.outlierBoxes.filter fun c => c.checked).map fun c => c.column
    normalize := (s.normalizeBoxes.filter fun c => c.checked).map fun c => c.column }

/-! ## The analyze handler (`analyze-btn` click, lines 88-132)

The handler awaits the fetch, parses the body with `response.json()`,
throws when `!response.ok` (preferring `data.error` over a status
message), and otherwise renders the plot image and every entry of
`data.stats`.  Any thrown error lands in the `catch` block, which
overwrites both result panes with the failure marker and a single
`Error`/message item.  We model the network outcome as the `response.ok`
flag plus the result of `response.json()` (a parse failure is a thrown
error), and the handler as a pure function to the final DOM contents. -/

/-- The parsed JSON body of a `/analyze` response: the optional `error`
field, the base64 `image`, and the `stats` object as an ordered list of
key/value pairs (`Object.entries(data.stats)`, line 119). -/
structure AnalyzeData where
  error : Option String
  image : String
  stats : List (String × String)
  deriving Repr, DecidableEq

/-- A `/analyze` network outcome: the HTTP status (`response.ok` and
`response.status`) and the result of `response.json()` — `Except.error`
when awaiting the fetch or parsing the body throws. -/
structure AnalyzeResponse where
  ok : Bool
  status : Nat
  body : Except String AnalyzeData
  deriving Repr

/-- The contents of the `plot-result` pane after the handler finishes. -/
inductive PlotPane where
  /-- `<img src="data:image/png;base64,...">` (line 116), carrying the
  base64 payload. -/
  | image (base64 : String)
  /-- the `Analysis Failed` error marker (line 127). -/
  | failedMarker
  deriving Repr, DecidableEq

/-- The final DOM state the analyze handler leaves: the plot pane, the
optional `Statistics for <column>` header, the rendered stat items
(name/value pairs, line 120 on success; the single `Error`/message item
of line 128 on failure) and the results container visibility (`grid` on
both paths, lines 123 and 126). -/
structure AnalyzeDisplay where
  plot : PlotPane
  statsHeader : Option String
  statsItems : List (String × String)
  resultsVisible : Bool
  deriving Repr, DecidableEq

/-- The error message the `catch` block receives: a thrown fetch/parse
error verbatim; for a non-ok status, `data.error` when present, else
`Server responded with status: <status>` (line 113). -/
def analyzeErrorMessage (r : AnalyzeResponse) (d : AnalyzeData) : String :=
  match d.error with
  | some e => e
  | none => "Server responded with status: " ++ toString r.status

/-- The analyze click handler (lines 99-131) as a function from the
selected column and the network outcome to the final display. -/
def analyzeHandler (selectedColumn : String) (r : AnalyzeResponse) : AnalyzeDisplay :=
  match r.body with
  | Except.error e =>
      { plot := PlotPane.failedMarker
        statsHeader := none
        statsItems := [("Error", e)]
        resultsVisible := true }
  | Except.ok d =>
      if r.ok then
        { plot := PlotPane.image d.image
          statsHeader := some ("Statistics for " ++ selectedColumn)
          statsItems := d.stats
          resultsVisible := true }
      else
        { plot := PlotPane.failedMarker
          statsHeader := none
          statsItems := [("Error", analyzeErrorMessage r d)]
          resultsVisible := true }

/-! ## The preprocess handler (`preprocess-btn` click, lines 50-85)

Unlike the analyze handler there is no `response.ok` check: the body is
parsed and the handler throws only when `data.error` is set (line 70) or
when the fetch/parse itself throws.  On the success path it renders the
returned log entries and preview, updates `currentCleanedFilename`, and
shows the download link. -/

/-- The parsed JSON body of a `/preprocess` response. -/
structure PreprocessData where
  error : Option String
  cleaned_filename : String
  log : List String
  preview : String
  deriving Repr, DecidableEq

/-- The contents of the `preprocess-log` container. -/
inductive LogPane where
  /-- one `<div>` per log entry (line 73); the empty list is the cleared
  container of line 55. -/
  | entries (items : List String)
  /-- the single `Preprocessing failed: <message>` error div (line 81). -/
  | failure (message : String)
  deriving Repr, DecidableEq

/-- What the preprocess handler leaves behind: the log pane, the new data
preview when one was rendered, the new `currentCleanedFilename` when it
was assigned, whether the handler ran lines 77-78 (show the download
container) and the href it set there.  The `catch` path leaves the
container as the click left it (hidden, line 56) and touches none of
the other fields. -/
structure PreprocessDisplay where
  log : LogPane
  preview : Option String
  newCleanedFilename : Option String
  downloadVisible : Bool
  downloadHref : Option String
  deriving Repr, DecidableEq

/-- The preprocess click handler (lines 63-84) as a function from the
network outcome (`Except.error` when the fetch or `response.json()`
throws) to its effects.  `downloadVisible`/`downloadHref` describe the
download container relative to the hidden state of line 56. -/
def preprocessHandler (r : Except String PreprocessData) : PreprocessDisplay :=
  match r with
  | Except.error e =>
      { log := LogPane.failure ("Preprocessing failed: " ++ e)
        preview := none
        newCleanedFilename := none
        downloadVisible := false
        downloadHref := none }
  | Except.ok d =>
      match d.error with
      | some e =>
          { log := LogPane.failure ("Preprocessing failed: " ++ e)
            preview := none
            newCleanedFilename := none
            downloadVisible := false
            downloadHref := none }
      | none =>
          { log := LogPane.entries d.log
            preview := some d.preview
            newCleanedFilename := some d.cleaned_filename
            downloadVisible := true
            downloadHref := some ("/download/" ++ d.cleaned_filename) }

/-! ## Session state machine (lines 3-5, 20-47, 50-85, 88-132)

The script's mutable session state and the DOM pieces the temporal
claims talk about, driven by an event trace.  Each async handler is
split into its synchronous prefix (the `Start` event: everything before
the first `await`) and its continuation (the `Complete` event, carrying
the network outcome).  `preprocessStart` and `analyzeStart` also emit
the request payload built at that moment (lines 67 and 103-107). -/

/-- The parsed JSON body of a successful `/upload` response (the fields
lines 35-37 read). -/
structure UploadData where
  filename : String
  columns : Columns
  deriving Repr, DecidableEq

/-- The session state: the three mutable variables of lines 3-5, the
download container (lines 14-15, 27, 56, 77-78), the preprocess log
container, and the number of preprocess requests awaiting their
responses.  The button of line 50 is never disabled, so several
requests can be pending at once; each click adds one and each response
resumes one handler. -/
structure SessionState where
  currentFilename : Option String
  currentCleanedFilename : Option String
  columns : Columns
  downloadVisible : Bool
  downloadHref : Option String
  logPane : LogPane
  preprocessPending : Nat
  deriving Repr

/-- The state when `DOMContentLoaded` fires (lines 3-5; the download
container starts hidden and the log empty in the page). -/
def initialState : SessionState :=
  { currentFilename := none
    currentCleanedFilename := none
    columns := { all := [], numeric := [] }
    downloadVisible := false
    downloadHref := none
    logPane := LogPane.entries []
    preprocessPending := 0 }

/-- The events of one session: each handler's synchronous prefix and its
resumption with the network outcome. -/
inductive Event where
  /-- upload submit, lines 21-27: hide main content, clear the upload
  error, hide the download container, send the form. -/
  | uploadStart
  /-- resumption of the upload handler, lines 30-45. -/
  | uploadComplete (r : Except String UploadData)
  /-- preprocess click, lines 51-68: clear the log, hide the download
  container, build `actions`, send `currentFilename`. -/
  | preprocessStart (tools : ToolState)
  /-- resumption of the preprocess handler, lines 69-83. -/
  | preprocessComplete (r : Except String PreprocessData)
  /-- analyze click, lines 89-107: send `currentCleanedFilename`, the
  selected column and plot type. -/
  | analyzeStart (column plotType : String)
  /-- resumption of the analyze handler, lines 110-130 (touches none of
  the modelled state). -/
  | analyzeComplete (column : String) (r : AnalyzeResponse)

/-- A request payload sent to the server, as far as the filename slot is
concerned. -/
inductive Request where
  | preprocess (filename : Option String) (actions : Actions)
  | analyze (filename : Option String) (column plotType : String)

/-- One step of the session: the next state and the request emitted, if
the event sends one. -/
def step (s : SessionState) : Event → SessionState × Option Request
  | Event.uploadStart =>
      ({ s with downloadVisible := false }, none)
  | Event.uploadComplete r =>
      match r with
      | Except.error _ => (s, none)
      | Except.ok d =>
          ({ s with
              currentFilename := some d.filename
              currentCleanedFilename := some d.filename
              columns := d.columns }, none)
  | Event.preprocessStart tools =>
      ({ s with
          logPane := LogPane.entries []
          downloadVisible := false
          preprocessPending := s.preprocessPending + 1 },
        some (Request.preprocess s.currentFilename (buildActions tools)))
  | Event.preprocessComplete r =>
      let d := preprocessHandler r
      ({ s with
          logPane := d.log
          currentCleanedFilename :=
            match d.newCleanedFilename with
            | some f => some f
            | none => s.currentCleanedFilename
          downloadVisible := d.downloadVisible || s.downloadVisible
          downloadHref :=
            match d.downloadHref with
            | some h => some h
            | none => s.downloadHref
          preprocessPending := s.preprocessPending - 1 }, none)
  | Event.analyzeStart column plotType =>
      (s, some (Request.analyze s.currentCleanedFilename column plotType))
  | Event.analyzeComplete _ _ => (s, none)

/-- Run a trace from a state, collecting the emitted requests in order. -/
def run (s : SessionState) : List Event → SessionState × List Request
  | [] => (s, [])
  | e :: rest =>
      ((run (step s e).1 rest).1,
        (step s e).2.toList ++ (run (step s e).1 rest).2)

/-- The state after running a trace from the initial state. -/
def runState (t : List Event) : SessionState :=
  (run initialState t).1

/-- The requests emitted while running a trace from the initial state. -/
def runRequests (t : List Event) : List Request :=
  (run initialState t).2

/-- The filename a single event records into `currentFilename`, if any:
only a successful upload completion does (line 35). -/
def lastUploadOf : Event → Option String
  | Event.uploadComplete (Except.ok d) => some d.filename
  | _ => none

/-- The filename of the last successful upload in a trace, if any. -/
def lastUploadFilename : List Event → Option String
  | [] => none
  | e :: rest =>
      match lastUploadFilename rest with
      | some f => some f
      | none => lastUploadOf e

/-- The number of preprocess requests still pending after a trace, given
the number pending before it: each preprocess click adds one, each
preprocess response retires one. -/
def pendingAfter (p : Nat) : List Event → Nat
  | [] => p
  | e :: rest =>
      pendingAfter
        (match e with
          | Event.preprocessStart _ => p + 1
          | Event.preprocessComplete _ => p - 1
          | _ => p) rest

/-- Sequential (non-overlapping) use of the preprocess button: every
click happens with no request pending, and every response retires a
pending request.  The browser does not enforce this — the button of
line 50 stays enabled while a request is in flight. -/
def seqPre (p : Nat) : List Event → Bool
  | [] => true
  | e :: rest =>
      match e with
      | Event.preprocessStart _ => p == 0 && seqPre (p + 1) rest
      | Event.preprocessComplete _ => p != 0 && seqPre (p - 1) rest
      | _ => seqPre p rest

/-! ## Theorems -/

/-- C2: for every column name and columns structure, `updatePlotOptions`
offers exactly histogram and boxplot when the column is in the numeric
set, and exactly the count plot otherwise — so histogram/boxplot can
only be requested for a numeric column and count only for a non-numeric
one. -/
theorem plot_options_exactly_by_type (cols : Columns) (col : String) :
    (col ∈ cols.numeric → updatePlotOptions cols col = ["histogram", "boxplot"]) ∧
    (col ∉ cols.numeric → updatePlotOptions cols col = ["count"]) := by
  constructor <;> intro h <;> simp [updatePlotOptions, h]

theorem plot_options_exactly_by_type_witness :
    updatePlotOptions ⟨["age", "name"], ["age"]⟩ "age" = ["histogram", "boxplot"] ∧
    updatePlotOptions ⟨["age", "name"], ["age"]⟩ "name" = ["count"] :=
  ⟨(plot_options_exactly_by_type ⟨["age", "name"], ["age"]⟩ "age").1 (by decide),
   (plot_options_exactly_by_type ⟨["age", "name"], ["age"]⟩ "name").2 (by decide)⟩

/-- C10: for any selected column not in the numeric set — including a name
absent from the columns structure entirely — `updatePlotOptions` falls
back to the categorical option set, and it never produces an empty
option list. -/
theorem plot_options_unknown_column_fallback (cols : Columns) (col : String) :
    (col ∉ cols.numeric → updatePlotOptions cols col = ["count"]) ∧
    updatePlotOptions cols col ≠ [] := by
  refine ⟨fun h => by simp [updatePlotOptions, h], ?_⟩
  unfold updatePlotOptions
  split <;> simp

theorem plot_options_unknown_column_fallback_witness :
    updatePlotOptions ⟨["age"], ["age"]⟩ "no-such-column" = ["count"] :=
  (plot_options_unknown_column_fallback ⟨["age"], ["age"]⟩ "no-such-column").1
    (by decide)

/-- C3: for every column not in the numeric set, the generated
preprocessing controls offer neither a mean nor a median fill option,
and create no outlier checkbox and no normalization checkbox. -/
theorem nonnumeric_controls_withhold_numeric_actions (cols : Columns)
    (ctrl : ColumnControls) (hmem : ctrl ∈ populatePreprocessingTools cols)
    (hcat : ctrl.column ∉ cols.numeric) :
    "mean" ∉ ctrl.missingOptions ∧ "median" ∉ ctrl.missingOptions ∧
    ctrl.hasOutlierBox = false ∧ ctrl.hasNormalizeBox = false := by
  rcases List.mem_map.1 hmem with ⟨col, _, rfl⟩
  simp only [populatePreprocessingTools] at hcat ⊢
  simp [missingValueOptions, hcat]

theorem nonnumeric_controls_withhold_numeric_actions_witness :
    ColumnControls.mk "name" ["none", "mode", "remove"] false false ∈
      populatePreprocessingTools ⟨["name"], []⟩ ∧
    "mean" ∉ ["none", "mode", "remove"] :=
  ⟨by decide,
   (nonnumeric_controls_withhold_numeric_actions ⟨["name"], []⟩
      (ColumnControls.mk "name" ["none", "mode", "remove"] false false)
      (by decide) (by decide)).1⟩

/-- C7: for every column, numeric or not, the missing-value select offers
the mode fill, the remove-row option and `none`; mean and median are
offered exactly for numeric columns. -/
theorem missing_select_mode_remove_always (cols : Columns)
    (ctrl : ColumnControls) (hmem : ctrl ∈ populatePreprocessingTools cols) :
    "none" ∈ ctrl.missingOptions ∧ "mode" ∈ ctrl.missingOptions ∧
    "remove" ∈ ctrl.missingOptions ∧
    ("mean" ∈ ctrl.missingOptions ↔ ctrl.column ∈ cols.numeric) ∧
    ("median" ∈ ctrl.missingOptions ↔ ctrl.column ∈ cols.numeric) := by
  rcases List.mem_map.1 hmem with ⟨col, _, rfl⟩
  by_cases h : col ∈ cols.numeric <;>
    simp [populatePreprocessingTools, missingValueOptions, h]

theorem missing_select_mode_remove_always_witness :
    "mode" ∈ (ColumnControls.mk "name" ["none", "mode", "remove"] false false).missingOptions ∧
    "remove" ∈ (ColumnControls.mk "name" ["none", "mode", "remove"] false false).missingOptions :=
  ⟨(missing_select_mode_remove_always ⟨["name"], []⟩
      (ColumnControls.mk "name" ["none", "mode", "remove"] false false) (by decide)).2.1,
   (missing_select_mode_remove_always ⟨["name"], []⟩
      (ColumnControls.mk "name" ["none", "mode", "remove"] false false) (by decide)).2.2.1⟩

/-- C4: the UI's column classification partitions the ordered column
list: the numeric and categorical sides are disjoint, every column of
`all` lies in exactly one of them (the categorical side being the
complement of the numeric set within `all`), and both sides preserve
the order of `all`. -/
theorem ui_classification_partitions_columns (cols : Columns) :
    (∀ c, c ∈ uiNumeric cols → c ∉ uiCategorical cols) ∧
    (∀ c, c ∈ cols.all ↔ (c ∈ uiNumeric cols ∨ c ∈ uiCategorical cols)) ∧
    (∀ c, c ∈ cols.all → c ∉ cols.numeric → c ∈ uiCategorical cols) ∧
    (uiNumeric cols).Sublist cols.all ∧ (uiCategorical cols).Sublist cols.all := by
  refine ⟨?_, ?_, ?_, List.filter_sublist _, List.filter_sublist _⟩
  · intro c hn hc
    simp [uiNumeric] at hn
    simp [uiCategorical] at hc
    exact hc.2 hn.2
  · intro c
    constructor
    · intro hall
      by_cases h : c ∈ cols.numeric
      · exact Or.inl (by simp [uiNumeric, hall, h])
      · exact Or.inr (by simp [uiCategorical, hall, h])
    · rintro (h | h)
      · exact (List.mem_filter.1 h).1
      · exact (List.mem_filter.1 h).1
  · intro c hall h
    simp [uiCategorical, hall, h]

theorem ui_classification_partitions_columns_witness :
    "name" ∈ (⟨["age", "name"], ["age"]⟩ : Columns).all ∧
    "name" ∈ uiCategorical ⟨["age", "name"], ["age"]⟩ :=
  ⟨by decide,
   (ui_classification_partitions_columns ⟨["age", "name"], ["age"]⟩).2.2.1 "name"
     (by decide) (by decide)⟩

/-- C1: every run of the analyze click handler either fully succeeds —
the plot pane holds the returned image and the stat items are exactly
the returned name/value pairs — or fully fails — the plot pane holds the
`Analysis Failed` marker and the stat pane holds a single `Error`
message item; partial statistics never accompany a failure. -/
theorem analyze_all_or_nothing (col : String) (r : AnalyzeResponse) :
    (∃ d, r.body = Except.ok d ∧ r.ok = true ∧
      analyzeHandler col r =
        { plot := PlotPane.image d.image
          statsHeader := some ("Statistics for " ++ col)
          statsItems := d.stats
          resultsVisible := true }) ∨
    (∃ msg, analyzeHandler col r =
        { plot := PlotPane.failedMarker
          statsHeader := none
          statsItems := [("Error", msg)]
          resultsVisible := true }) := by
  rcases hb : r.body with e | d
  · exact Or.inr ⟨e, by simp [analyzeHandler, hb]⟩
  · cases ho : r.ok
    · exact Or.inr ⟨analyzeErrorMessage r d, by simp [analyzeHandler, hb, ho]⟩
    · exact Or.inl ⟨d, rfl, rfl, by simp [analyzeHandler, hb, ho]⟩

/-- C5: the preprocess handler shows a `Preprocessing failed` message
exactly when the call as a whole failed (a thrown error or an `error`
field in the body); every non-error response takes the success path,
rendering precisely the returned log entries and preview. -/
theorem preprocess_failure_only_on_total_failure (r : Except String PreprocessData) :
    (∀ e, r = Except.error e →
      preprocessHandler r =
        { log := LogPane.failure ("Preprocessing failed: " ++ e)
          preview := none
          newCleanedFilename := none
          downloadVisible := false
          downloadHref := none }) ∧
    (∀ d e, r = Except.ok d → d.error = some e →
      preprocessHandler r =
        { log := LogPane.failure ("Preprocessing failed: " ++ e)
          preview := none
          newCleanedFilename := none
          downloadVisible := false
          downloadHref := none }) ∧
    (∀ d, r = Except.ok d → d.error = none →
      preprocessHandler r =
        { log := LogPane.entries d.log
          preview := some d.preview
          newCleanedFilename := some d.cleaned_filename
          downloadVisible := true
          downloadHref := some ("/download/" ++ d.cleaned_filename) }) ∧
    ((∃ msg, (preprocessHandler r).log = LogPane.failure msg) ↔
      ((∃ e, r = Except.error e) ∨ (∃ d e, r = Except.ok d ∧ d.error = some e))) := by
  refine ⟨?_, ?_, ?_, ?_⟩
  · rintro e rfl; rfl
  · rintro d e rfl he
    obtain ⟨derr, dc, dl, dp⟩ := d
    cases he
    rfl
  · rintro d rfl he
    obtain ⟨derr, dc, dl, dp⟩ := d
    cases he
    rfl
  · constructor
    · rintro ⟨msg, hmsg⟩
      rcases r with e | d
      · exact Or.inl ⟨e, rfl⟩
      · obtain ⟨derr, dc, dl, dp⟩ := d
        cases derr with
        | none => exact absurd hmsg (by simp [preprocessHandler])
        | some e => exact Or.inr ⟨_, e, rfl, rfl⟩
    · rintro (⟨e, rfl⟩ | ⟨d, e, rfl, he⟩)
      · exact ⟨_, rfl⟩
      · obtain ⟨derr, dc, dl, dp⟩ := d
        cases he
        exact ⟨_, rfl⟩

theorem preprocess_failure_only_on_total_failure_witness :
    preprocessHandler (Except.ok ⟨none, "clean.csv", ["filled 1 cell"], "<table>"⟩) =
      { log := LogPane.entries ["filled 1 cell"]
        preview := some "<table>"
        newCleanedFilename := some "clean.csv"
        downloadVisible := true
        downloadHref := some "/download/clean.csv" } :=
  (preprocess_failure_only_on_total_failure
      (Except.ok ⟨none, "clean.csv", ["filled 1 cell"], "<table>"⟩)).2.2.1
    ⟨none, "clean.csv", ["filled 1 cell"], "<table>"⟩ rfl rfl

/-- C6: provided every missing-value select holds one of its generated
option values, the actions payload has exactly the PreprocessingAction
shape: `missing_values` maps a column to one of mean/median/mode/remove
and contains a select's column iff its value is not `none`; `outliers`
and `normalize` are exactly the checked columns of their checkbox
groups. -/
theorem actions_payload_shape (s : ToolState)
    (hopts : ∀ m ∈ s.missingSelects, ∃ b, m.value ∈ missingValueOptions b) :
    (∀ p ∈ (buildActions s).missing_values,
        p.2 ∈ ["mean", "median", "mode", "remove"]) ∧
    (∀ m ∈ s.missingSelects, m.value ≠ "none" →
        (m.column, m.value) ∈ (buildActions s).missing_values) ∧
    (∀ p ∈ (buildActions s).missing_values,
        ∃ m ∈ s.missingSelects, m.column = p.1 ∧ m.value = p.2 ∧ m.value ≠ "none") ∧
    (∀ c, c ∈ (buildActions s).outliers ↔
        ∃ b ∈ s.outlierBoxes, b.checked = true ∧ b.column = c) ∧
    (∀ c, c ∈ (buildActions s).normalize ↔
        ∃ b ∈ s.normalizeBoxes, b.checked = true ∧ b.column = c) := by
  refine ⟨?_, ?_, ?_, ?_, ?_⟩
  · intro p hp
    rcases List.mem_filterMap.1 hp with ⟨m, hm, hf⟩
    by_cases hv : m.value = "none"
    · simp [hv] at hf
    · simp [hv] at hf
      subst hf
      rcases hopts m hm with ⟨b, hb⟩
      cases b
      · simp [missingValueOptions, hv] at hb
        rcases hb with h | h <;> simp [h]
      · simp [missingValueOptions, hv] at hb
        rcases hb with h | h | h | h <;> simp [h]
  · intro m hm hne
    exact List.mem_filterMap.2 ⟨m, hm, by simp [hne]⟩
  · intro p hp
    rcases List.mem_filterMap.1 hp with ⟨m, hm, hf⟩
    by_cases hv : m.value = "none"
    · simp [hv] at hf
    · simp [hv] at hf
      exact ⟨m, hm, by simp [← hf, hv]⟩
  · intro c
    simp only [buildActions, List.mem_map, List.mem_filter]
    constructor
    · rintro ⟨b, ⟨hb, hc⟩, rfl⟩
      exact ⟨b, hb, hc, rfl⟩
    · rintro ⟨b, hb, hc, rfl⟩
      exact ⟨b, ⟨hb, hc⟩, rfl⟩
  · intro c
    simp only [buildActions, List.mem_map, List.mem_filter]
    constructor
    · rintro ⟨b, ⟨hb, hc⟩, rfl⟩
      exact ⟨b, hb, hc, rfl⟩
    · rintro ⟨b, hb, hc, rfl⟩
      exact ⟨b, ⟨hb, hc⟩, rfl⟩

theorem actions_payload_shape_witness :
    ("age", "mean") ∈
      (buildActions
        ⟨[⟨"age", "mean"⟩, ⟨"name", "none"⟩],
          [⟨"age", true⟩], [⟨"age", false⟩]⟩).missing_values :=
  (actions_payload_shape
      ⟨[⟨"age", "mean"⟩, ⟨"name", "none"⟩], [⟨"age", true⟩], [⟨"age", false⟩]⟩
      (by decide)).2.1
    ⟨"age", "mean"⟩ (by decide) (by decide)

theorem run_append (s : SessionState) (t1 t2 : List Event) :
    run s (t1 ++ t2) =
      ((run (run s t1).1 t2).1, (run s t1).2 ++ (run (run s t1).1 t2).2) := by
  induction t1 generalizing s with
  | nil => simp [run]
  | cons e rest ih => simp [run, ih]

theorem runState_append (t : List Event) (e : Event) :
    runState (t ++ [e]) = (step (runState t) e).1 := by
  simp [runState, run_append, run]

theorem runRequests_append (t : List Event) (e : Event) :
    runRequests (t ++ [e]) = runRequests t ++ (step (runState t) e).2.toList := by
  simp [runRequests, runState, run_append, run]

theorem run_currentFilename (s : SessionState) (t : List Event) :
    (run s t).1.currentFilename =
      match lastUploadFilename t with
      | some f => some f
      | none => s.currentFilename := by
  induction t generalizing s with
  | nil => simp [run, lastUploadFilename]
  | cons e rest ih =>
    simp only [run]
    rw [ih]
    simp only [lastUploadFilename]
    cases hl : lastUploadFilename rest
    · cases e with
      | uploadStart => simp [step, lastUploadOf]
      | uploadComplete r => cases r <;> simp [step, lastUploadOf]
      | preprocessStart tools => simp [step, lastUploadOf]
      | preprocessComplete r => simp [step, lastUploadOf]
      | analyzeStart c p => simp [step, lastUploadOf]
      | analyzeComplete c r => simp [step, lastUploadOf]
    · simp

theorem run_pending (s : SessionState) (t : List Event) :
    ((run s t).1).preprocessPending = pendingAfter s.preprocessPending t := by
  induction t generalizing s with
  | nil => rfl
  | cons e rest ih =>
    cases e with
    | uploadStart => simpa [run, step, pendingAfter] using ih _
    | uploadComplete r =>
      cases r with
      | error m => simpa [run, step, pendingAfter] using ih _
      | ok d => simpa [run, step, pendingAfter] using ih _
    | preprocessStart tools => simpa [run, step, pendingAfter] using ih _
    | preprocessComplete r => simpa [run, step, pendingAfter] using ih _
    | analyzeStart c p => simpa [run, step, pendingAfter] using ih _
    | analyzeComplete c r => simpa [run, step, pendingAfter] using ih _

theorem seqPre_append (p : Nat) (t1 t2 : List Event) :
    seqPre p (t1 ++ t2) = (seqPre p t1 && seqPre (pendingAfter p t1) t2) := by
  induction t1 generalizing p with
  | nil => simp [seqPre, pendingAfter]
  | cons e rest ih =>
    cases e with
    | uploadStart => simp [seqPre, pendingAfter, ih]
    | uploadComplete r => simp [seqPre, pendingAfter, ih]
    | preprocessStart tools => simp [seqPre, pendingAfter, ih, Bool.and_assoc]
    | preprocessComplete r => simp [seqPre, pendingAfter, ih, Bool.and_assoc]
    | analyzeStart c pt => simp [seqPre, pendingAfter, ih]
    | analyzeComplete c r => simp [seqPre, pendingAfter, ih]

theorem seq_download_invariant (t : List Event) : ∀ (s : SessionState),
    seqPre s.preprocessPending t = true →
    s.preprocessPending ≤ 1 →
    (s.preprocessPending ≠ 0 → s.downloadVisible = false) →
    ((run s t).1.preprocessPending ≤ 1 ∧
      ((run s t).1.preprocessPending ≠ 0 → (run s t).1.downloadVisible = false)) := by
  induction t with
  | nil => exact fun s _ hle hinv => ⟨hle, hinv⟩
  | cons e rest ih =>
    intro s hseq hle hinv
    cases e with
    | uploadStart =>
      exact ih _ (by simpa [seqPre, step] using hseq) hle (fun _ => rfl)
    | uploadComplete r =>
      cases r with
      | error m => exact ih _ (by simpa [seqPre, step] using hseq) hle hinv
      | ok d => exact ih _ (by simpa [seqPre, step] using hseq) hle hinv
    | preprocessStart tools =>
      simp only [seqPre, Bool.and_eq_true, beq_iff_eq] at hseq
      refine ih _ ?_ ?_ (fun _ => rfl)
      · simpa [step, hseq.1] using hseq.2
      · simp [step, hseq.1]
    | preprocessComplete r =>
      simp only [seqPre, Bool.and_eq_true, bne_iff_ne, ne_eq] at hseq
      have hp1 : s.preprocessPending = 1 := le_antisymm hle (Nat.one_le_iff_ne_zero.2 hseq.1)
      refine ih _ ?_ ?_ ?_
      · simpa [step, hp1] using hseq.2
      · simp [step, hp1]
      · simp [step, hp1]
    | analyzeStart c pt =>
      exact ih _ (by simpa [seqPre, step] using hseq) hle hinv
    | analyzeComplete c r =>
      exact ih _ (by simpa [seqPre, step] using hseq) hle hinv

theorem preprocessHandler_failure_not_visible (r : Except String PreprocessData)
    (msg : String) (h : (preprocessHandler r).log = LogPane.failure msg) :
    (preprocessHandler r).downloadVisible = false := by
  rcases r with e | d
  · rfl
  · obtain ⟨derr, dc, dl, dp⟩ := d
    cases derr with
    | none => simp [preprocessHandler] at h
    | some e => rfl

/-- C8: `currentFilename` always equals the filename of the last
successful upload — no other event assigns it — and every preprocess
request is sent with it, never with the cleaned filename; every analyze
request is sent with `currentCleanedFilename`, which a successful
preprocess response updates to the latest cleaned snapshot. -/
theorem preprocess_uses_upload_filename :
    (∀ t, (runState t).currentFilename = lastUploadFilename t) ∧
    (∀ s e, lastUploadOf e = none →
        ((step s e).1).currentFilename = s.currentFilename) ∧
    (∀ t tools, runRequests (t ++ [Event.preprocessStart tools]) =
        runRequests t ++
          [Request.preprocess (lastUploadFilename t) (buildActions tools)]) ∧
    (∀ t col pt, runRequests (t ++ [Event.analyzeStart col pt]) =
        runRequests t ++
          [Request.analyze (runState t).currentCleanedFilename col pt]) ∧
    (∀ s d, d.error = none →
        ((step s (Event.preprocessComplete (Except.ok d))).1).currentCleanedFilename =
          some d.cleaned_filename) := by
  have h1 : ∀ t, (runState t).currentFilename = lastUploadFilename t := by
    intro t
    rw [runState, run_currentFilename]
    cases lastUploadFilename t <;> rfl
  refine ⟨h1, ?_, ?_, ?_, ?_⟩
  · intro s e h
    cases e with
    | uploadStart => rfl
    | uploadComplete r =>
      cases r with
      | error m => rfl
      | ok d => simp [lastUploadOf] at h
    | preprocessStart tools => rfl
    | preprocessComplete r => rfl
    | analyzeStart c p => rfl
    | analyzeComplete c r => rfl
  · intro t tools
    rw [runRequests_append]
    simp [step, h1 t]
  · intro t col pt
    rw [runRequests_append]
    simp [step]
  · intro s d h
    obtain ⟨derr, dc, dl, dp⟩ := d
    cases h
    rfl

theorem preprocess_uses_upload_filename_witness :
    ((step initialState (Event.preprocessStart ⟨[], [], []⟩)).1).currentFilename =
        initialState.currentFilename ∧
    ((step initialState (Event.preprocessComplete
        (Except.ok ⟨none, "clean.csv", ["log entry"], "<t>"⟩))).1).currentCleanedFilename =
      some "clean.csv" :=
  ⟨preprocess_uses_upload_filename.2.1 initialState
      (Event.preprocessStart ⟨[], [], []⟩) rfl,
   preprocess_uses_upload_filename.2.2.2.2 initialState
      ⟨none, "clean.csv", ["log entry"], "<t>"⟩ rfl⟩

/-- C9, counterexample: the preprocess button is never disabled, so a
second click can race a pending request.  In the trace click, click,
first response succeeds, the download link is shown (line 78) while the
second request is still pending — and when that second request then
fails, the catch block (lines 80-81) does not re-hide the container, so
the link also stays visible after a failed preprocessing run. -/
theorem download_visible_while_preprocessing_counterexample :
    (runState [Event.preprocessStart ⟨[], [], []⟩,
        Event.preprocessStart ⟨[], [], []⟩,
        Event.preprocessComplete
          (Except.ok ⟨none, "clean.csv", [], "<t>"⟩)]).preprocessPending = 1 ∧
    (runState [Event.preprocessStart ⟨[], [], []⟩,
        Event.preprocessStart ⟨[], [], []⟩,
        Event.preprocessComplete
          (Except.ok ⟨none, "clean.csv", [], "<t>"⟩)]).downloadVisible = true ∧
    (runState [Event.preprocessStart ⟨[], [], []⟩,
        Event.preprocessStart ⟨[], [], []⟩,
        Event.preprocessComplete (Except.ok ⟨none, "clean.csv", [], "<t>"⟩),
        Event.preprocessComplete (Except.error "boom")]).downloadVisible = true :=
  ⟨rfl, rfl, rfl⟩

/-- C9, amended: provided preprocess requests never overlap (each
click's response arrives before the next click), the download container
is never visible while a preprocess request is pending nor after a
failed response; a preprocess click first hides it and clears the log,
an upload first hides it, and only a response without error shows it,
with the link set to `/download/<cleaned_filename>`. -/
theorem download_hidden_when_preprocessing_sequential :
    (∀ t, seqPre 0 t = true → (runState t).preprocessPending ≠ 0 →
        (runState t).downloadVisible = false) ∧
    (∀ t r msg, seqPre 0 (t ++ [Event.preprocessComplete r]) = true →
        (preprocessHandler r).log = LogPane.failure msg →
        (runState (t ++ [Event.preprocessComplete r])).downloadVisible = false) ∧
    (∀ s tools, ((step s (Event.preprocessStart tools)).1).downloadVisible = false ∧
        ((step s (Event.preprocessStart tools)).1).logPane = LogPane.entries []) ∧
    (∀ s, ((step s Event.uploadStart).1).downloadVisible = false) ∧
    (∀ s d, d.error = none →
        ((step s (Event.preprocessComplete (Except.ok d))).1).downloadVisible = true ∧
        ((step s (Event.preprocessComplete (Except.ok d))).1).downloadHref =
          some ("/download/" ++ d.cleaned_filename)) := by
  have h1 : ∀ t, seqPre 0 t = true → (runState t).preprocessPending ≠ 0 →
      (runState t).downloadVisible = false := by
    intro t hseq
    exact (seq_download_invariant t initialState hseq (by decide) (fun h => absurd rfl h)).2
  refine ⟨h1, ?_, ?_, ?_, ?_⟩
  · intro t r msg hseq hlog
    rw [seqPre_append] at hseq
    simp only [Bool.and_eq_true, seqPre, bne_iff_ne, ne_eq] at hseq
    have hpend : (runState t).preprocessPending ≠ 0 := by
      rw [runState, run_pending]
      exact hseq.2.1
    have hv := h1 t hseq.1 hpend
    have hd := preprocessHandler_failure_not_visible r msg hlog
    rw [runState_append]
    simp [step, hd, hv]
  · intro s tools; exact ⟨rfl, rfl⟩
  · intro s; exact rfl
  · intro s d h
    obtain ⟨derr, dc, dl, dp⟩ := d
    cases h
    exact ⟨rfl, rfl⟩

theorem download_hidden_when_preprocessing_sequential_witness :
    (runState [Event.preprocessStart ⟨[], [], []⟩]).downloadVisible = false ∧
    (runState [Event.preprocessStart ⟨[], [], []⟩,
        Event.preprocessComplete (Except.error "boom")]).downloadVisible = false ∧
    ((step initialState (Event.preprocessComplete
        (Except.ok ⟨none, "clean.csv", [], "<t>"⟩))).1).downloadHref =
      some "/download/clean.csv" :=
  ⟨download_hidden_when_preprocessing_sequential.1
      [Event.preprocessStart ⟨[], [], []⟩] rfl (by decide),
   download_hidden_when_preprocessing_sequential.2.1
      [Event.preprocessStart ⟨[], [], []⟩] (Except.error "boom")
      "Preprocessing failed: boom" rfl rfl,
   (download_hidden_when_preprocessing_sequential.2.2.2.2 initialState
      ⟨none, "clean.csv", [], "<t>"⟩ rfl).2⟩

end DataPrep
